import Mathlib

/-!
Shallow embedding of the ToDo-API-BSBO task service
(`src/routers/tasks.py`, `src/routers/stats.py`, `src/schemas.py`,
`src/models/task.py`).

Conventions of the embedding:
* Python `datetime` becomes `DateTime`: a calendar-day number (`day : Int`,
  days since an arbitrary epoch) plus a time-of-day payload (`tod : Nat`);
  `datetime.date()` keeps only `day`.
* The ambient clock (`date.today()`, `datetime.now()`) is passed explicitly
  as a `today : Int` (and, for stamping, a `now : DateTime`) parameter.
* The SQLAlchemy session becomes an explicit `Db` value (the task table plus
  the autoincrement counter); handlers that mutate return the new `Db`.
* `HTTPException(status_code, detail)` raised by a handler — including the
  422 produced by FastAPI for `Query(..., min_length=2)` — becomes the
  `Except.error` branch of the handler's result.
-/

namespace ToDo

/-- Calendar timestamp: day number (date part) and time-of-day payload. -/
structure DateTime where
  day : Int
  tod : Nat
  deriving DecidableEq, Repr

/-- The `.date()` projection of a timestamp: only the calendar day. -/
def dateOf (d : DateTime) : Int := d.day

/-- Role enum used by the routers (`models`, referenced as `UserRole`). -/
inductive UserRole where
  | ADMIN
  | USER
  deriving DecidableEq, Repr, BEq

/-- The caller identity the routers consume (`current_user.id`, `current_user.role`). -/
structure User where
  id : Nat
  role : UserRole
  deriving DecidableEq, Repr

/-- Row of the `tasks` table (`src/models/task.py`). -/
structure Task where
  id : Nat
  title : String
  description : Option String
  is_important : Bool
  is_urgent : Bool
  quadrant : String
  completed : Bool
  created_at : DateTime
  completed_at : Option DateTime
  deadline_at : Option DateTime
  user_id : Nat
  deriving DecidableEq, Repr

/-- The task table plus the autoincrement primary-key counter. -/
structure Db where
  tasks : List Task
  nextId : Nat
  deriving DecidableEq, Repr

/-- An error response: FastAPI `HTTPException`. -/
structure HTTPException where
  status_code : Nat
  detail : String
  deriving DecidableEq, Repr

/-- Urgency part of `calculate_urgency_and_quadrant`
(src/routers/tasks.py lines 22–32): urgent iff a deadline exists and its
date part is at most 3 days after `today`. -/
def deadlineUrgent (deadline_at : Option DateTime) (today : Int) : Bool :=
  match deadline_at with
  | none => false
  | some d => decide (dateOf d - today ≤ 3)

/-- Quadrant part of `calculate_urgency_and_quadrant`
(src/routers/tasks.py lines 34–41): the Eisenhower if-chain. -/
def classify (is_important is_urgent : Bool) : String :=
  if is_important && is_urgent then "Q1"
  else if is_important && !is_urgent then "Q2"
  else if !is_important && is_urgent then "Q3"
  else "Q4"

/-- Embedding of `calculate_urgency_and_quadrant` (src/routers/tasks.py
lines 21–43), with `date.today()` made an explicit parameter. -/
def calculate_urgency_and_quadrant (deadline_at : Option DateTime)
    (is_important : Bool) (today : Int) : Bool × String :=
  let is_urgent := deadlineUrgent deadline_at today
  (is_urgent, classify is_important is_urgent)

/-- Embedding of `calculate_days_until_deadline` (src/routers/tasks.py
lines 46–54): calendar-day difference, `none` when there is no deadline. -/
def calculate_days_until_deadline (deadline_at : Option DateTime)
    (today : Int) : Option Int :=
  match deadline_at with
  | none => none
  | some d => some (dateOf d - today)

/-- Response schema `TaskResponse` (src/schemas.py): the stored fields plus
the freshly computed `days_until_deadline`; no `user_id` is exposed. -/
structure TaskResponse where
  id : Nat
  title : String
  description : Option String
  is_important : Bool
  deadline_at : Option DateTime
  is_urgent : Bool
  quadrant : String
  completed : Bool
  created_at : DateTime
  completed_at : Option DateTime
  days_until_deadline : Option Int
  deriving DecidableEq, Repr

/-- Serialization used by every task read/write:
`TaskResponse(**{**task.to_dict(), "days_until_deadline": calculate_days_until_deadline(...)})`. -/
def taskResponse (t : Task) (today : Int) : TaskResponse :=
  { id := t.id
    title := t.title
    description := t.description
    is_important := t.is_important
    deadline_at := t.deadline_at
    is_urgent := t.is_urgent
    quadrant := t.quadrant
    completed := t.completed
    created_at := t.created_at
    completed_at := t.completed_at
    days_until_deadline := calculate_days_until_deadline t.deadline_at today }

/-- Request schema `TaskCreate` (src/schemas.py). -/
structure TaskCreate where
  title : String
  description : Option String
  is_important : Bool
  deadline_at : Option DateTime
  deriving DecidableEq, Repr

/-- Request schema `TaskUpdate` (src/schemas.py): the outer `Option` marks
whether the field was present in the request (`model_dump(exclude_unset=True)`),
the inner type is the stored field's type. -/
structure TaskUpdate where
  title : Option String := none
  description : Option (Option String) := none
  is_important : Option Bool := none
  deadline_at : Option (Option DateTime) := none
  completed : Option Bool := none
  deriving DecidableEq, Repr

/-- The `setattr` loop of `update_task` (src/routers/tasks.py lines 249–252):
set exactly the fields present in the request. -/
def applyUpdate (task : Task) (u : TaskUpdate) : Task :=
  { task with
    title := u.title.getD task.title
    description := u.description.getD task.description
    is_important := u.is_important.getD task.is_important
    deadline_at := u.deadline_at.getD task.deadline_at
    completed := u.completed.getD task.completed }

/-- Lines 249–258 of `update_task`: apply the provided fields, then
recompute `is_urgent`/`quadrant` iff `is_important` or `deadline_at` was
among them. -/
def updatedTask (task : Task) (task_update : TaskUpdate) (today : Int) : Task :=
  let task1 := applyUpdate task task_update
  if task_update.is_important.isSome || task_update.deadline_at.isSome then
    let computed :=
      calculate_urgency_and_quadrant task1.deadline_at task1.is_important today
    { task1 with is_urgent := computed.1, quadrant := computed.2 }
  else task1

/-- The ownership guard repeated in every single-resource handler:
`current_user.role != UserRole.ADMIN and task.user_id != current_user.id`. -/
def authFails (current_user : User) (task : Task) : Bool :=
  current_user.role != UserRole.ADMIN && task.user_id != current_user.id

/-- Case-insensitive substring test: `column.ilike("%" + q.lower() + "%")`. -/
def listContainsSub (pat : List Char) : List Char → Bool
  | [] => pat.isEmpty
  | c :: rest => pat.isPrefixOf (c :: rest) || listContainsSub pat rest

/-- Embedding of `field.ilike(keyword)` where `keyword = "%" + q + "%"`
and `q` is already lowercased by the caller. -/
def ilikeContains (field q : String) : Bool :=
  listContainsSub q.toList field.toLower.toList

/-- Handler `get_all_tasks` (src/routers/tasks.py lines 58–77):
admin sees every row, a user only their own. -/
def get_all_tasks (db : Db) (current_user : User) (today : Int) :
    List TaskResponse :=
  let tasks :=
    if current_user.role = UserRole.ADMIN then db.tasks
    else db.tasks.filter (fun t => t.user_id == current_user.id)
  tasks.map (fun t => taskResponse t today)

/-- Handler `get_tasks_today` (src/routers/tasks.py lines 81–108):
`func.date(Task.deadline_at) == today`, scoped by role. -/
def get_tasks_today (db : Db) (current_user : User) (today : Int) :
    List TaskResponse :=
  let isToday := fun (t : Task) =>
    match t.deadline_at with
    | some d => dateOf d == today
    | none => false
  let tasks :=
    if current_user.role = UserRole.ADMIN then db.tasks.filter isToday
    else db.tasks.filter (fun t => t.user_id == current_user.id && isToday t)
  tasks.map (fun t => taskResponse t today)

/-- Handler `get_tasks_by_status` (src/routers/tasks.py lines 113–132):
status must be `completed` or `pending`, otherwise a 404 error. -/
def get_tasks_by_status (db : Db) (current_user : User) (stVal : String)
    (today : Int) : Except HTTPException (List TaskResponse) :=
  if !(stVal == "completed" || stVal == "pending") then
    .error ⟨404, "Недопустимый статус. Используйте: completed или pending"⟩
  else
    let is_completed := stVal == "completed"
    let tasks :=
      if current_user.role = UserRole.ADMIN then
        db.tasks.filter (fun t => t.completed == is_completed)
      else
        db.tasks.filter (fun t =>
          t.user_id == current_user.id && t.completed == is_completed)
    .ok (tasks.map (fun t => taskResponse t today))

/-- Handler `search_tasks` (src/routers/tasks.py lines 136–163):
FastAPI rejects `q` shorter than 2 characters with a 422 before the body
runs; an empty scoped result is a 404. -/
def search_tasks (db : Db) (current_user : User) (q : String) (today : Int) :
    Except HTTPException (List TaskResponse) :=
  if q.length < 2 then
    .error ⟨422, "String should have at least 2 characters"⟩
  else
    let kw := q.toLower
    let matchKw := fun (t : Task) =>
      ilikeContains t.title kw ||
        (match t.description with
         | some d => ilikeContains d kw
         | none => false)
    let tasks :=
      if current_user.role = UserRole.ADMIN then db.tasks.filter matchKw
      else db.tasks.filter (fun t => t.user_id == current_user.id && matchKw t)
    if tasks.isEmpty then
      .error ⟨404, "По данному запросу ничего не найдено"⟩
    else
      .ok (tasks.map (fun t => taskResponse t today))

/-- Handler `get_tasks_by_quadrant` (src/routers/tasks.py lines 167–183):
quadrant must be Q1–Q4, otherwise a 400 error. -/
def get_tasks_by_quadrant (db : Db) (current_user : User) (qd : String)
    (today : Int) : Except HTTPException (List TaskResponse) :=
  if !(qd == "Q1" || qd == "Q2" || qd == "Q3" || qd == "Q4") then
    .error ⟨400, "Неверный квадрант. Используйте: Q1, Q2, Q3, Q4"⟩
  else
    let tasks :=
      if current_user.role = UserRole.ADMIN then
        db.tasks.filter (fun t => t.quadrant == qd)
      else
        db.tasks.filter (fun t => t.quadrant == qd && t.user_id == current_user.id)
    .ok (tasks.map (fun t => taskResponse t today))

/-- Handler `get_task_by_id` (src/routers/tasks.py lines 187–202):
404 when absent, then 403 when a non-admin caller is not the owner. -/
def get_task_by_id (db : Db) (current_user : User) (task_id : Nat)
    (today : Int) : Except HTTPException TaskResponse :=
  match db.tasks.find? (fun t => t.id == task_id) with
  | none => .error ⟨404, "Задача не найдена"⟩
  | some task =>
    if authFails current_user task then
      .error ⟨403, "Нет доступа к этой задаче"⟩
    else
      .ok (taskResponse task today)

/-- Handler `create_task` (src/routers/tasks.py lines 206–229): derived
fields from `calculate_urgency_and_quadrant`, `completed = False`, owner is
the caller, id from the autoincrement counter, `created_at` stamped now. -/
def create_task (db : Db) (current_user : User) (task : TaskCreate)
    (today : Int) (now : DateTime) : TaskResponse × Db :=
  let computed := calculate_urgency_and_quadrant task.deadline_at task.is_important today
  let new_task : Task :=
    { id := db.nextId
      title := task.title
      description := task.description
      is_important := task.is_important
      is_urgent := computed.1
      quadrant := computed.2
      completed := false
      created_at := now
      completed_at := none
      deadline_at := task.deadline_at
      user_id := current_user.id }
  (taskResponse new_task today,
    { tasks := db.tasks ++ [new_task], nextId := db.nextId + 1 })

/-- Handler `update_task` (src/routers/tasks.py lines 233–262): 404, then
403, then apply the provided fields, then recompute `is_urgent`/`quadrant`
when `is_important` or `deadline_at` was among them. -/
def update_task (db : Db) (current_user : User) (task_id : Nat)
    (task_update : TaskUpdate) (today : Int) :
    Except HTTPException (TaskResponse × Db) :=
  match db.tasks.find? (fun t => t.id == task_id) with
  | none => .error ⟨404, "Задача не найдена"⟩
  | some task =>
    if authFails current_user task then
      .error ⟨403, "Нет доступа к этой задаче"⟩
    else
      let task2 := updatedTask task task_update today
      .ok (taskResponse task2 today,
        { db with tasks := db.tasks.map (fun t => if t.id == task_id then task2 else t) })

/-- Handler `delete_task` (src/routers/tasks.py lines 266–285): 404, then
403, then hard delete; returns the deleted row's id and title. -/
def delete_task (db : Db) (current_user : User) (task_id : Nat) :
    Except HTTPException ((Nat × String) × Db) :=
  match db.tasks.find? (fun t => t.id == task_id) with
  | none => .error ⟨404, "Задача не найдена"⟩
  | some task =>
    if authFails current_user task then
      .error ⟨403, "Нет доступа к этой задаче"⟩
    else
      .ok ((task.id, task.title),
        { db with tasks := db.tasks.eraseP (fun t => t.id == task_id) })

/-- Handler `complete_task` (src/routers/tasks.py lines 289–309): 404, then
403, then unconditionally `completed = True`, `completed_at = now`. -/
def complete_task (db : Db) (current_user : User) (task_id : Nat)
    (today : Int) (now : DateTime) :
    Except HTTPException (TaskResponse × Db) :=
  match db.tasks.find? (fun t => t.id == task_id) with
  | none => .error ⟨404, "Задача не найдена"⟩
  | some task =>
    if authFails current_user task then
      .error ⟨403, "Нет доступа к этой задаче"⟩
    else
      let task2 := { task with completed := true, completed_at := some now }
      .ok (taskResponse task2 today,
        { db with tasks := db.tasks.map (fun t => if t.id == task_id then task2 else t) })

/-- Aggregate counters of `get_tasks_stats` (src/routers/stats.py lines 19–47). -/
structure TasksStats where
  total_tasks : Nat
  q1 : Nat
  q2 : Nat
  q3 : Nat
  q4 : Nat
  completedCount : Nat
  pendingCount : Nat
  deriving DecidableEq, Repr

/-- One pass of the tally loop in `get_tasks_stats`: bump the quadrant
bucket when recognized (unrecognized values are dropped), and one of
completed/pending. -/
def statsStep (acc : TasksStats) (t : Task) : TasksStats :=
  let acc :=
    if t.quadrant == "Q1" then { acc with q1 := acc.q1 + 1 }
    else if t.quadrant == "Q2" then { acc with q2 := acc.q2 + 1 }
    else if t.quadrant == "Q3" then { acc with q3 := acc.q3 + 1 }
    else if t.quadrant == "Q4" then { acc with q4 := acc.q4 + 1 }
    else acc
  if t.completed then { acc with completedCount := acc.completedCount + 1 }
  else { acc with pendingCount := acc.pendingCount + 1 }

/-- The tally of `get_tasks_stats` over a given task list. -/
def tallyStats (tasks : List Task) : TasksStats :=
  tasks.foldl statsStep
    { total_tasks := tasks.length, q1 := 0, q2 := 0, q3 := 0, q4 := 0,
      completedCount := 0, pendingCount := 0 }

/-- Handler `get_tasks_stats` (src/routers/stats.py lines 19–47):
the tally over the role-scoped task set. -/
def get_tasks_stats (db : Db) (current_user : User) : TasksStats :=
  let tasks :=
    if current_user.role = UserRole.ADMIN then db.tasks
    else db.tasks.filter (fun t => t.user_id == current_user.id)
  tallyStats tasks

/-- Response schema `DeadlineStatsResponse` (src/schemas.py). -/
structure DeadlineStat where
  title : String
  description : Option String
  created_at : DateTime
  days_until_deadline : Option Int
  deriving DecidableEq, Repr

/-- Row builder of `get_deadline_stats`: the inline day computation there
is the same calendar-day difference as `calculate_days_until_deadline`. -/
def deadlineStatOf (t : Task) (today : Int) : DeadlineStat :=
  { title := t.title
    description := t.description
    created_at := t.created_at
    days_until_deadline := calculate_days_until_deadline t.deadline_at today }

/-- Handler `get_deadline_stats` (src/routers/stats.py lines 50–82):
incomplete tasks in role scope, with report-time day counts. -/
def get_deadline_stats (db : Db) (current_user : User) (today : Int) :
    List DeadlineStat :=
  let tasks :=
    if current_user.role = UserRole.ADMIN then
      db.tasks.filter (fun t => t.completed == false)
    else
      db.tasks.filter (fun t =>
        t.completed == false && t.user_id == current_user.id)
  tasks.map (fun t => deadlineStatOf t today)

/-! ### Helper lemmas shared by the claim theorems -/

lemma authFails_false_of_admin (u : User) (t : Task)
    (h : u.role = UserRole.ADMIN) : authFails u t = false := by
  have hb : (u.role != UserRole.ADMIN) = false := by rw [h]; decide
  simp [authFails, hb]

lemma authFails_false_of_owner (u : User) (t : Task)
    (h : t.user_id = u.id) : authFails u t = false := by
  simp [authFails, h]

lemma authFails_false_of_allowed (u : User) (t : Task)
    (h : u.role = UserRole.ADMIN ∨ t.user_id = u.id) : authFails u t = false := by
  cases h with
  | inl h => exact authFails_false_of_admin u t h
  | inr h => exact authFails_false_of_owner u t h

lemma authFails_true_of_denied (u : User) (t : Task)
    (h1 : u.role ≠ UserRole.ADMIN) (h2 : t.user_id ≠ u.id) :
    authFails u t = true := by
  have hb : (u.role != UserRole.ADMIN) = true := by
    cases hu : u.role with
    | ADMIN => exact absurd hu h1
    | USER => decide
  have hn : (t.user_id != u.id) = true := by simpa using h2
  simp [authFails, hb, hn]

lemma find?_id_none {l : List Task} {tid : Nat}
    (h : ∀ t ∈ l, t.id ≠ tid) : l.find? (fun t => t.id == tid) = none := by
  rw [List.find?_eq_none]
  intro t ht
  simpa using h t ht

lemma find?_id_some_id {l : List Task} {tid : Nat} {t : Task}
    (h : l.find? (fun x => x.id == tid) = some t) : t.id = tid := by
  simpa using List.find?_some h

lemma eq_of_mem_replace {l : List Task} {tid : Nat} {t2 x : Task}
    (hx : x ∈ l.map (fun t => if t.id == tid then t2 else t))
    (hid : x.id = tid) : x = t2 := by
  rcases List.mem_map.mp hx with ⟨a, _, hfa⟩
  by_cases h : (a.id == tid) = true
  · rw [if_pos h] at hfa
    exact hfa.symm
  · rw [if_neg h] at hfa
    rw [← hfa] at hid
    exact absurd (by simpa using hid) (by simpa using h)

lemma mem_eraseP_id_iff {l : List Task} {tid : Nat}
    (hnd : l.Pairwise (fun a b => a.id ≠ b.id)) (x : Task) :
    x ∈ l.eraseP (fun t => t.id == tid) ↔ (x ∈ l ∧ x.id ≠ tid) := by
  induction l with
  | nil => simp
  | cons c rest ih =>
    rw [List.pairwise_cons] at hnd
    by_cases hc : (c.id == tid) = true
    · have hcid : c.id = tid := by simpa using hc
      rw [List.eraseP_cons, hc]
      simp only [cond_true, List.mem_cons]
      constructor
      · intro hx
        refine ⟨Or.inr hx, ?_⟩
        intro hxid
        exact hnd.1 x hx (by rw [hcid, hxid])
      · rintro ⟨hx, hne⟩
        cases hx with
        | inl hxc => exact absurd (hxc ▸ hcid) hne
        | inr hx => exact hx
    · have hc' : (c.id == tid) = false := by simpa using hc
      rw [List.eraseP_cons, hc']
      simp only [cond_false, List.mem_cons]
      constructor
      · intro hx
        cases hx with
        | inl hxc =>
          refine ⟨Or.inl hxc, ?_⟩
          rw [hxc]
          simpa using hc
        | inr hx =>
          rcases (ih hnd.2).mp hx with ⟨hmem, hne⟩
          exact ⟨Or.inr hmem, hne⟩
      · rintro ⟨hx, hne⟩
        cases hx with
        | inl hxc => exact Or.inl hxc
        | inr hx => exact Or.inr ((ih hnd.2).mpr ⟨hx, hne⟩)

lemma update_task_eq_ok (db : Db) (u : User) (tid : Nat) (upd : TaskUpdate)
    (today : Int) (t : Task)
    (hfind : db.tasks.find? (fun x => x.id == tid) = some t)
    (hauth : authFails u t = false) :
    update_task db u tid upd today =
      .ok (taskResponse (updatedTask t upd today) today,
        { db with tasks := db.tasks.map (fun x => if x.id == tid then updatedTask t upd today else x) }) := by
  simp [update_task, hfind, hauth]

lemma complete_task_eq_ok (db : Db) (u : User) (tid : Nat) (today : Int)
    (now : DateTime) (t : Task)
    (hfind : db.tasks.find? (fun x => x.id == tid) = some t)
    (hauth : authFails u t = false) :
    complete_task db u tid today now =
      .ok (taskResponse { t with completed := true, completed_at := some now } today,
        { db with tasks := db.tasks.map (fun x => if x.id == tid then { t with completed := true, completed_at := some now } else x) }) := by
  simp [complete_task, hfind, hauth]

lemma delete_task_eq_ok (db : Db) (u : User) (tid : Nat) (t : Task)
    (hfind : db.tasks.find? (fun x => x.id == tid) = some t)
    (hauth : authFails u t = false) :
    delete_task db u tid =
      .ok ((t.id, t.title),
        { db with tasks := db.tasks.eraseP (fun x => x.id == tid) }) := by
  simp [delete_task, hfind, hauth]

lemma get_task_by_id_eq_ok (db : Db) (u : User) (tid : Nat) (today : Int)
    (t : Task) (hfind : db.tasks.find? (fun x => x.id == tid) = some t)
    (hauth : authFails u t = false) :
    get_task_by_id db u tid today = .ok (taskResponse t today) := by
  simp [get_task_by_id, hfind, hauth]

lemma get_task_by_id_notfound (db : Db) (u : User) (tid : Nat) (today : Int)
    (hfind : db.tasks.find? (fun x => x.id == tid) = none) :
    get_task_by_id db u tid today = .error ⟨404, "Задача не найдена"⟩ := by
  simp [get_task_by_id, hfind]

lemma get_task_by_id_forbidden (db : Db) (u : User) (tid : Nat) (today : Int)
    (t : Task) (hfind : db.tasks.find? (fun x => x.id == tid) = some t)
    (hauth : authFails u t = true) :
    get_task_by_id db u tid today = .error ⟨403, "Нет доступа к этой задаче"⟩ := by
  simp [get_task_by_id, hfind, hauth]

lemma update_task_notfound (db : Db) (u : User) (tid : Nat) (upd : TaskUpdate)
    (today : Int) (hfind : db.tasks.find? (fun x => x.id == tid) = none) :
    update_task db u tid upd today = .error ⟨404, "Задача не найдена"⟩ := by
  simp [update_task, hfind]

lemma update_task_forbidden (db : Db) (u : User) (tid : Nat) (upd : TaskUpdate)
    (today : Int) (t : Task)
    (hfind : db.tasks.find? (fun x => x.id == tid) = some t)
    (hauth : authFails u t = true) :
    update_task db u tid upd today = .error ⟨403, "Нет доступа к этой задаче"⟩ := by
  simp [update_task, hfind, hauth]

lemma delete_task_notfound (db : Db) (u : User) (tid : Nat)
    (hfind : db.tasks.find? (fun x => x.id == tid) = none) :
    delete_task db u tid = .error ⟨404, "Задача не найдена"⟩ := by
  simp [delete_task, hfind]

lemma delete_task_forbidden (db : Db) (u : User) (tid : Nat) (t : Task)
    (hfind : db.tasks.find? (fun x => x.id == tid) = some t)
    (hauth : authFails u t = true) :
    delete_task db u tid = .error ⟨403, "Нет доступа к этой задаче"⟩ := by
  simp [delete_task, hfind, hauth]

lemma complete_task_notfound (db : Db) (u : User) (tid : Nat) (today : Int)
    (now : DateTime) (hfind : db.tasks.find? (fun x => x.id == tid) = none) :
    complete_task db u tid today now = .error ⟨404, "Задача не найдена"⟩ := by
  simp [complete_task, hfind]

lemma complete_task_forbidden (db : Db) (u : User) (tid : Nat) (today : Int)
    (now : DateTime) (t : Task)
    (hfind : db.tasks.find? (fun x => x.id == tid) = some t)
    (hauth : authFails u t = true) :
    complete_task db u tid today now = .error ⟨403, "Нет доступа к этой задаче"⟩ := by
  simp [complete_task, hfind, hauth]

lemma updatedTask_fields (t : Task) (u : TaskUpdate) (today : Int) :
    (updatedTask t u today).title = u.title.getD t.title ∧
    (updatedTask t u today).description = u.description.getD t.description ∧
    (updatedTask t u today).is_important = u.is_important.getD t.is_important ∧
    (updatedTask t u today).deadline_at = u.deadline_at.getD t.deadline_at ∧
    (updatedTask t u today).completed = u.completed.getD t.completed ∧
    (updatedTask t u today).id = t.id ∧
    (updatedTask t u today).created_at = t.created_at ∧
    (updatedTask t u today).completed_at = t.completed_at ∧
    (updatedTask t u today).user_id = t.user_id := by
  unfold updatedTask applyUpdate
  by_cases h : (u.is_important.isSome || u.deadline_at.isSome) = true <;>
    simp [h]

lemma updatedTask_recomputed (t : Task) (u : TaskUpdate) (today : Int)
    (h : (u.is_important.isSome || u.deadline_at.isSome) = true) :
    (updatedTask t u today).is_urgent =
      deadlineUrgent (updatedTask t u today).deadline_at today ∧
    (updatedTask t u today).quadrant =
      classify (updatedTask t u today).is_important (updatedTask t u today).is_urgent := by
  simp [updatedTask, h, calculate_urgency_and_quadrant]

lemma updatedTask_untouched (t : Task) (u : TaskUpdate) (today : Int)
    (h1 : u.is_important = none) (h2 : u.deadline_at = none) :
    (updatedTask t u today).is_urgent = t.is_urgent ∧
    (updatedTask t u today).quadrant = t.quadrant := by
  simp [updatedTask, applyUpdate, h1, h2]

lemma scoped_filter_map_mem {tasks : List Task} {today : Int} {uid : Nat}
    {p : Task → Bool} {r : TaskResponse}
    (hr : r ∈ (tasks.filter p).map (fun t => taskResponse t today))
    (himp : ∀ t : Task, p t = true → t.user_id = uid) :
    ∃ t ∈ tasks, t.user_id = uid ∧ r = taskResponse t today := by
  rcases List.mem_map.mp hr with ⟨t, ht, hrt⟩
  rcases List.mem_filter.mp ht with ⟨htdb, hpt⟩
  exact ⟨t, htdb, himp t hpt, hrt.symm⟩

/-! ### Claim theorems -/

/-- C2: the quadrant classifier is a pure total function with the four-row
Eisenhower table — Q1 for important+urgent, Q2 important only, Q3 urgent
only, Q4 neither — and no other output is possible. -/
theorem classify_total_table :
    classify true true = "Q1" ∧ classify true false = "Q2" ∧
    classify false true = "Q3" ∧ classify false false = "Q4" ∧
    ∀ i u : Bool, classify i u = "Q1" ∨ classify i u = "Q2" ∨
      classify i u = "Q3" ∨ classify i u = "Q4" := by
  decide

/-- C3: the deadline evaluator returns not-urgent and a null day count when
the deadline is absent; otherwise the day count is the calendar-day
difference (time of day discarded, possibly negative) and urgency holds
exactly when that difference is at most 3 — so 3 days away is urgent,
4 days away is not, and every past deadline is urgent. -/
theorem deadline_evaluator_spec (today : Int) :
    (deadlineUrgent none today = false ∧
      calculate_days_until_deadline none today = none) ∧
    (∀ d : DateTime,
      calculate_days_until_deadline (some d) today = some (dateOf d - today) ∧
      (deadlineUrgent (some d) today = true ↔ dateOf d - today ≤ 3)) ∧
    (∀ (day : Int) (t1 t2 : Nat),
      calculate_days_until_deadline (some ⟨day, t1⟩) today =
        calculate_days_until_deadline (some ⟨day, t2⟩) today ∧
      deadlineUrgent (some ⟨day, t1⟩) today = deadlineUrgent (some ⟨day, t2⟩) today) ∧
    (∀ d : DateTime, dateOf d - today = 3 → deadlineUrgent (some d) today = true) ∧
    (∀ d : DateTime, dateOf d - today = 4 → deadlineUrgent (some d) today = false) ∧
    (∀ d : DateTime, dateOf d < today → deadlineUrgent (some d) today = true) := by
  refine ⟨⟨rfl, rfl⟩, ?_, ?_, ?_, ?_, ?_⟩
  · intro d
    exact ⟨rfl, by simp [deadlineUrgent]⟩
  · intro day t1 t2
    exact ⟨rfl, rfl⟩
  · intro d h
    simp [deadlineUrgent]
    omega
  · intro d h
    simp [deadlineUrgent]
    omega
  · intro d h
    simp [deadlineUrgent]
    omega

/-- Witness for `deadline_evaluator_spec` at concrete inputs: with today = 0,
a deadline on day 3 is urgent, on day 4 is not, and on day −2 (overdue) is. -/
theorem deadline_evaluator_spec_witness :
    deadlineUrgent (some ⟨3, 0⟩) 0 = true ∧
    deadlineUrgent (some ⟨4, 0⟩) 0 = false ∧
    deadlineUrgent (some ⟨-2, 0⟩) 0 = true :=
  ⟨(deadline_evaluator_spec 0).2.2.2.1 ⟨3, 0⟩ (by decide),
   (deadline_evaluator_spec 0).2.2.2.2.1 ⟨4, 0⟩ (by decide),
   (deadline_evaluator_spec 0).2.2.2.2.2 ⟨-2, 0⟩ (by decide)⟩

/-- C1: after every create, and after every update whose provided fields
include `is_important` or `deadline_at`, the persisted task's `quadrant`
equals `classify` of its `(is_important, is_urgent)` and its `is_urgent`
equals the deadline evaluation against the operation-time date. -/
theorem derived_fields_consistent :
    (∀ (db : Db) (u : User) (tc : TaskCreate) (today : Int) (now : DateTime),
      ∃ nt : Task,
        (create_task db u tc today now).2.tasks = db.tasks ++ [nt] ∧
        (create_task db u tc today now).1 = taskResponse nt today ∧
        nt.quadrant = classify nt.is_important nt.is_urgent ∧
        nt.is_urgent = deadlineUrgent nt.deadline_at today) ∧
    (∀ (db : Db) (u : User) (tid : Nat) (upd : TaskUpdate) (today : Int)
        (r : TaskResponse) (db2 : Db),
      update_task db u tid upd today = .ok (r, db2) →
      (upd.is_important.isSome ∨ upd.deadline_at.isSome) →
      ∀ x ∈ db2.tasks, x.id = tid →
        x.quadrant = classify x.is_important x.is_urgent ∧
        x.is_urgent = deadlineUrgent x.deadline_at today) := by
  constructor
  · intro db u tc today now
    refine ⟨Task.mk db.nextId tc.title tc.description tc.is_important
        (deadlineUrgent tc.deadline_at today)
        (classify tc.is_important (deadlineUrgent tc.deadline_at today))
        false now none tc.deadline_at u.id, ?_, ?_, ?_, ?_⟩ <;>
      simp [create_task, calculate_urgency_and_quadrant]
  · intro db u tid upd today r db2 hok hsome x hxmem hxid
    cases hfind : db.tasks.find? (fun t => t.id == tid) with
    | none =>
      rw [update_task_notfound db u tid upd today hfind] at hok
      exact Except.noConfusion hok
    | some t =>
      by_cases hauth : authFails u t = true
      · rw [update_task_forbidden db u tid upd today t hfind hauth] at hok
        exact Except.noConfusion hok
      · have hauth' : authFails u t = false := by simpa using hauth
        have heq := (update_task_eq_ok db u tid upd today t hfind hauth').symm.trans hok
        have hdb2 : ({ db with tasks := db.tasks.map (fun y => if y.id == tid then updatedTask t upd today else y) } : Db) = db2 := by
          injection heq with h
          exact congrArg Prod.snd h
        subst hdb2
        have hxmem' : x ∈ db.tasks.map (fun y => if y.id == tid then updatedTask t upd today else y) := hxmem
        have hcond : (upd.is_important.isSome || upd.deadline_at.isSome) = true := by
          cases hsome with
          | inl h => simp [h]
          | inr h => simp [h]
        have hx2 : x = updatedTask t upd today := eq_of_mem_replace hxmem' hxid
        rcases updatedTask_recomputed t upd today hcond with ⟨hurg, hquad⟩
        rw [hx2]
        exact ⟨hquad, hurg⟩

/-- Witness for `derived_fields_consistent`: updating a stored Q4 task by
providing `is_important := true` leaves its derived fields consistent with
the classifier and the deadline evaluator at the update date. -/
theorem derived_fields_consistent_witness :
    (updatedTask ⟨1, "Old task", none, false, false, "Q4", false, ⟨0, 0⟩, none, none, 7⟩
        { is_important := some true } 0).quadrant =
      classify
        (updatedTask ⟨1, "Old task", none, false, false, "Q4", false, ⟨0, 0⟩, none, none, 7⟩
          { is_important := some true } 0).is_important
        (updatedTask ⟨1, "Old task", none, false, false, "Q4", false, ⟨0, 0⟩, none, none, 7⟩
          { is_important := some true } 0).is_urgent ∧
    (updatedTask ⟨1, "Old task", none, false, false, "Q4", false, ⟨0, 0⟩, none, none, 7⟩
        { is_important := some true } 0).is_urgent =
      deadlineUrgent
        (updatedTask ⟨1, "Old task", none, false, false, "Q4", false, ⟨0, 0⟩, none, none, 7⟩
          { is_important := some true } 0).deadline_at 0 :=
  derived_fields_consistent.2
    ⟨[⟨1, "Old task", none, false, false, "Q4", false, ⟨0, 0⟩, none, none, 7⟩], 2⟩
    ⟨7, UserRole.USER⟩ 1 { is_important := some true } 0
    (taskResponse
      (updatedTask ⟨1, "Old task", none, false, false, "Q4", false, ⟨0, 0⟩, none, none, 7⟩
        { is_important := some true } 0) 0)
    ⟨[updatedTask ⟨1, "Old task", none, false, false, "Q4", false, ⟨0, 0⟩, none, none, 7⟩
        { is_important := some true } 0], 2⟩
    rfl (Or.inl (by decide))
    (updatedTask ⟨1, "Old task", none, false, false, "Q4", false, ⟨0, 0⟩, none, none, 7⟩
      { is_important := some true } 0)
    (by simp) rfl

/-- C9: update applies exactly the provided fields among
{title, description, is_important, deadline_at, completed}; every field not
provided keeps its previous value, and id, created_at, completed_at and the
owner are never modified; the derived pair is also untouched when neither
is_important nor deadline_at was provided. -/
theorem update_partial_semantics (db : Db) (u : User) (tid : Nat)
    (upd : TaskUpdate) (today : Int) (t : Task)
    (hfind : db.tasks.find? (fun x => x.id == tid) = some t)
    (hauth : authFails u t = false) :
    update_task db u tid upd today =
      .ok (taskResponse (updatedTask t upd today) today, { db with tasks := db.tasks.map (fun x => if x.id == tid then updatedTask t upd today else x) }) ∧
    (updatedTask t upd today).title = upd.title.getD t.title ∧
    (updatedTask t upd today).description = upd.description.getD t.description ∧
    (updatedTask t upd today).is_important = upd.is_important.getD t.is_important ∧
    (updatedTask t upd today).deadline_at = upd.deadline_at.getD t.deadline_at ∧
    (updatedTask t upd today).completed = upd.completed.getD t.completed ∧
    (updatedTask t upd today).id = t.id ∧
    (updatedTask t upd today).created_at = t.created_at ∧
    (updatedTask t upd today).completed_at = t.completed_at ∧
    (updatedTask t upd today).user_id = t.user_id ∧
    (upd.is_important = none → upd.deadline_at = none →
      (updatedTask t upd today).is_urgent = t.is_urgent ∧
      (updatedTask t upd today).quadrant = t.quadrant) := by
  refine ⟨update_task_eq_ok db u tid upd today t hfind hauth, ?_⟩
  rcases updatedTask_fields t upd today with ⟨h1, h2, h3, h4, h5, h6, h7, h8, h9⟩
  exact ⟨h1, h2, h3, h4, h5, h6, h7, h8, h9,
    fun ha hb => updatedTask_untouched t upd today ha hb⟩

/-- Witness for `update_partial_semantics`: a request providing only a new
title changes the title and leaves completed_at untouched. -/
theorem update_partial_semantics_witness :
    (updatedTask ⟨1, "Old", some "d", true, true, "Q1", false, ⟨0, 0⟩, none, some ⟨1, 0⟩, 7⟩
        { title := some "New title" } 5).title = "New title" ∧
    (updatedTask ⟨1, "Old", some "d", true, true, "Q1", false, ⟨0, 0⟩, none, some ⟨1, 0⟩, 7⟩
        { title := some "New title" } 5).completed_at = none :=
  ⟨(update_partial_semantics
      ⟨[⟨1, "Old", some "d", true, true, "Q1", false, ⟨0, 0⟩, none, some ⟨1, 0⟩, 7⟩], 2⟩
      ⟨7, UserRole.USER⟩ 1 { title := some "New title" } 5
      ⟨1, "Old", some "d", true, true, "Q1", false, ⟨0, 0⟩, none, some ⟨1, 0⟩, 7⟩
      rfl rfl).2.1,
   (update_partial_semantics
      ⟨[⟨1, "Old", some "d", true, true, "Q1", false, ⟨0, 0⟩, none, some ⟨1, 0⟩, 7⟩], 2⟩
      ⟨7, UserRole.USER⟩ 1 { title := some "New title" } 5
      ⟨1, "Old", some "d", true, true, "Q1", false, ⟨0, 0⟩, none, some ⟨1, 0⟩, 7⟩
      rfl rfl).2.2.2.2.2.2.2.2.1⟩

/-- C5 counterexample: an update that provides `completed := true` persists
a task with `completed = true` while `completed_at` stays null, so the
claimed "completed_at non-null iff completed" invariant fails. -/
theorem completed_iff_violated :
    update_task ⟨[⟨1, "Sample task", none, false, false, "Q4", false, ⟨0, 0⟩, none, none, 7⟩], 2⟩
        ⟨7, UserRole.USER⟩ 1 { completed := some true } 0 =
      .ok (⟨1, "Sample task", none, false, none, false, "Q4", true, ⟨0, 0⟩, none, none⟩,
        ⟨[⟨1, "Sample task", none, false, false, "Q4", true, ⟨0, 0⟩, none, none, 7⟩], 2⟩) ∧
    (⟨1, "Sample task", none, false, false, "Q4", true, ⟨0, 0⟩, none, none, 7⟩ : Task).completed = true ∧
    (⟨1, "Sample task", none, false, false, "Q4", true, ⟨0, 0⟩, none, none, 7⟩ : Task).completed_at = none :=
  ⟨rfl, rfl, rfl⟩

/-- C5 (amended): `complete` writes `completed = true` and stamps
`completed_at = now` on every call — also when the task was already
completed, overwriting the old stamp — while `update` never modifies
`completed_at` even when it toggles `completed`. -/
theorem completed_at_discipline (db : Db) (u : User) (tid : Nat)
    (upd : TaskUpdate) (today : Int) (now : DateTime) (t : Task)
    (hfind : db.tasks.find? (fun x => x.id == tid) = some t)
    (hauth : authFails u t = false) :
    complete_task db u tid today now =
      .ok (taskResponse { t with completed := true, completed_at := some now } today, { db with tasks := db.tasks.map (fun x => if x.id == tid then { t with completed := true, completed_at := some now } else x) }) ∧
    (updatedTask t upd today).completed_at = t.completed_at := by
  refine ⟨complete_task_eq_ok db u tid today now t hfind hauth, ?_⟩
  exact (updatedTask_fields t upd today).2.2.2.2.2.2.2.1

/-- Witness for `completed_at_discipline`: completing an already-completed
task overwrites its old `completed_at` stamp with the new one. -/
theorem completed_at_discipline_witness :
    complete_task ⟨[⟨1, "Done", none, false, false, "Q4", true, ⟨0, 0⟩, some ⟨1, 0⟩, none, 7⟩], 2⟩
        ⟨7, UserRole.USER⟩ 1 0 ⟨9, 0⟩ =
      .ok (⟨1, "Done", none, false, none, false, "Q4", true, ⟨0, 0⟩, some ⟨9, 0⟩, none⟩,
        ⟨[⟨1, "Done", none, false, false, "Q4", true, ⟨0, 0⟩, some ⟨9, 0⟩, none, 7⟩], 2⟩) :=
  (completed_at_discipline
    ⟨[⟨1, "Done", none, false, false, "Q4", true, ⟨0, 0⟩, some ⟨1, 0⟩, none, 7⟩], 2⟩
    ⟨7, UserRole.USER⟩ 1 {} 0 ⟨9, 0⟩
    ⟨1, "Done", none, false, false, "Q4", true, ⟨0, 0⟩, some ⟨1, 0⟩, none, 7⟩
    rfl rfl).1

/-- C6: in every single-resource handler the existence check runs before
the ownership check — a missing id yields 404 for any caller, and an
existing task owned by someone else yields 403 for a non-admin caller, so
existence is revealed. -/
theorem existence_checked_before_ownership (db : Db) (u : User) (tid : Nat)
    (upd : TaskUpdate) (today : Int) (now : DateTime) :
    ((∀ t ∈ db.tasks, t.id ≠ tid) →
      get_task_by_id db u tid today = .error ⟨404, "Задача не найдена"⟩ ∧
      update_task db u tid upd today = .error ⟨404, "Задача не найдена"⟩ ∧
      delete_task db u tid = .error ⟨404, "Задача не найдена"⟩ ∧
      complete_task db u tid today now = .error ⟨404, "Задача не найдена"⟩) ∧
    (∀ t : Task, db.tasks.find? (fun x => x.id == tid) = some t →
      u.role ≠ UserRole.ADMIN → t.user_id ≠ u.id →
      get_task_by_id db u tid today = .error ⟨403, "Нет доступа к этой задаче"⟩ ∧
      update_task db u tid upd today = .error ⟨403, "Нет доступа к этой задаче"⟩ ∧
      delete_task db u tid = .error ⟨403, "Нет доступа к этой задаче"⟩ ∧
      complete_task db u tid today now = .error ⟨403, "Нет доступа к этой задаче"⟩) := by
  constructor
  · intro h
    have hfind := find?_id_none h
    exact ⟨get_task_by_id_notfound db u tid today hfind,
      update_task_notfound db u tid upd today hfind,
      delete_task_notfound db u tid hfind,
      complete_task_notfound db u tid today now hfind⟩
  · intro t hfind hrole howner
    have hauth := authFails_true_of_denied u t hrole howner
    exact ⟨get_task_by_id_forbidden db u tid today t hfind hauth,
      update_task_forbidden db u tid upd today t hfind hauth,
      delete_task_forbidden db u tid t hfind hauth,
      complete_task_forbidden db u tid today now t hfind hauth⟩

/-- Witness for `existence_checked_before_ownership`: a missing id gives
404 even to a non-owner caller, and an existing foreign task gives that
caller 403 on `get_task_by_id`. -/
theorem existence_checked_before_ownership_witness :
    get_task_by_id ⟨[], 1⟩ ⟨8, UserRole.USER⟩ 1 0 = .error ⟨404, "Задача не найдена"⟩ ∧
    get_task_by_id ⟨[⟨1, "Foreign", none, false, false, "Q4", false, ⟨0, 0⟩, none, none, 7⟩], 2⟩
        ⟨8, UserRole.USER⟩ 1 0 = .error ⟨403, "Нет доступа к этой задаче"⟩ :=
  ⟨((existence_checked_before_ownership ⟨[], 1⟩ ⟨8, UserRole.USER⟩ 1 {} 0 ⟨0, 0⟩).1
      (by simp)).1,
   ((existence_checked_before_ownership
      ⟨[⟨1, "Foreign", none, false, false, "Q4", false, ⟨0, 0⟩, none, none, 7⟩], 2⟩
      ⟨8, UserRole.USER⟩ 1 {} 0 ⟨0, 0⟩).2
      ⟨1, "Foreign", none, false, false, "Q4", false, ⟨0, 0⟩, none, none, 7⟩
      rfl (by decide) (by decide)).1⟩

/-- C7: deleting an existing, authorized task removes exactly the row with
that id (under primary-key uniqueness) and returns its id and title;
deleting a missing id yields 404 and, since the handler returns before any
delete, the table is untouched. -/
theorem delete_task_spec (db : Db) (u : User) (tid : Nat) (t : Task) :
    (db.tasks.find? (fun x => x.id == tid) = some t →
      authFails u t = false →
      delete_task db u tid =
        .ok ((t.id, t.title), { db with tasks := db.tasks.eraseP (fun x => x.id == tid) }) ∧
      (db.tasks.Pairwise (fun a b => a.id ≠ b.id) →
        ∀ x : Task, x ∈ db.tasks.eraseP (fun y => y.id == tid) ↔
          (x ∈ db.tasks ∧ x.id ≠ tid))) ∧
    ((∀ x ∈ db.tasks, x.id ≠ tid) →
      delete_task db u tid = .error ⟨404, "Задача не найдена"⟩) := by
  constructor
  · intro hfind hauth
    refine ⟨delete_task_eq_ok db u tid t hfind hauth, ?_⟩
    intro hnd x
    exact mem_eraseP_id_iff hnd x
  · intro h
    exact delete_task_notfound db u tid (find?_id_none h)

/-- Witness for `delete_task_spec`: deleting the only task of its owner
returns its id and title with the task gone, and deleting from an empty
table is a 404. -/
theorem delete_task_spec_witness :
    delete_task ⟨[⟨1, "Mine", none, false, false, "Q4", false, ⟨0, 0⟩, none, none, 7⟩], 2⟩
        ⟨7, UserRole.USER⟩ 1 = .ok ((1, "Mine"), ⟨[], 2⟩) ∧
    delete_task ⟨[], 1⟩ ⟨7, UserRole.USER⟩ 1 = .error ⟨404, "Задача не найдена"⟩ :=
  ⟨((delete_task_spec ⟨[⟨1, "Mine", none, false, false, "Q4", false, ⟨0, 0⟩, none, none, 7⟩], 2⟩
      ⟨7, UserRole.USER⟩ 1
      ⟨1, "Mine", none, false, false, "Q4", false, ⟨0, 0⟩, none, none, 7⟩).1 rfl rfl).1,
   (delete_task_spec ⟨[], 1⟩ ⟨7, UserRole.USER⟩ 1
      ⟨1, "Mine", none, false, false, "Q4", false, ⟨0, 0⟩, none, none, 7⟩).2 (by simp)⟩

/-- C4: a USER-role caller's list-style reads (list, today filter, status
filter, quadrant filter, search, both statistics endpoints) draw only from
tasks they own; single-resource access to a foreign existing task is a 403
ForbiddenError (not a 404 and not silently filtered); an ADMIN-role caller
is never restricted by ownership in any operation. -/
theorem ownership_scoping (db : Db) (u : User) (today : Int)
    (upd : TaskUpdate) (now : DateTime) :
    (u.role = UserRole.USER →
      (∀ r ∈ get_all_tasks db u today,
        ∃ t ∈ db.tasks, t.user_id = u.id ∧ r = taskResponse t today) ∧
      (∀ r ∈ get_tasks_today db u today,
        ∃ t ∈ db.tasks, t.user_id = u.id ∧ r = taskResponse t today) ∧
      (∀ (s : String) (l : List TaskResponse),
        get_tasks_by_status db u s today = .ok l → ∀ r ∈ l,
          ∃ t ∈ db.tasks, t.user_id = u.id ∧ r = taskResponse t today) ∧
      (∀ (qd : String) (l : List TaskResponse),
        get_tasks_by_quadrant db u qd today = .ok l → ∀ r ∈ l,
          ∃ t ∈ db.tasks, t.user_id = u.id ∧ r = taskResponse t today) ∧
      (∀ (q : String) (l : List TaskResponse),
        search_tasks db u q today = .ok l → ∀ r ∈ l,
          ∃ t ∈ db.tasks, t.user_id = u.id ∧ r = taskResponse t today) ∧
      (get_tasks_stats db u = tallyStats (db.tasks.filter (fun t => t.user_id == u.id))) ∧
      (∀ r ∈ get_deadline_stats db u today,
        ∃ t ∈ db.tasks, t.user_id = u.id ∧ r = deadlineStatOf t today) ∧
      (∀ (tid : Nat) (t : Task), db.tasks.find? (fun x => x.id == tid) = some t →
        t.user_id ≠ u.id →
        get_task_by_id db u tid today = .error ⟨403, "Нет доступа к этой задаче"⟩ ∧
        update_task db u tid upd today = .error ⟨403, "Нет доступа к этой задаче"⟩ ∧
        delete_task db u tid = .error ⟨403, "Нет доступа к этой задаче"⟩ ∧
        complete_task db u tid today now = .error ⟨403, "Нет доступа к этой задаче"⟩)) ∧
    (u.role = UserRole.ADMIN →
      (get_all_tasks db u today = db.tasks.map (fun t => taskResponse t today)) ∧
      (∀ (tid : Nat) (t : Task), db.tasks.find? (fun x => x.id == tid) = some t →
        get_task_by_id db u tid today = .ok (taskResponse t today) ∧
        update_task db u tid upd today =
          .ok (taskResponse (updatedTask t upd today) today, { db with tasks := db.tasks.map (fun x => if x.id == tid then updatedTask t upd today else x) }) ∧
        delete_task db u tid =
          .ok ((t.id, t.title), { db with tasks := db.tasks.eraseP (fun x => x.id == tid) }) ∧
        complete_task db u tid today now =
          .ok (taskResponse { t with completed := true, completed_at := some now } today, { db with tasks := db.tasks.map (fun x => if x.id == tid then { t with completed := true, completed_at := some now } else x) }))) := by
  constructor
  · intro hrole
    have hne : ¬u.role = UserRole.ADMIN := by rw [hrole]; intro hc; cases hc
    refine ⟨?_, ?_, ?_, ?_, ?_, ?_, ?_, ?_⟩
    · intro r hr
      simp only [get_all_tasks] at hr
      rw [if_neg hne] at hr
      exact scoped_filter_map_mem hr (fun t h => by simpa using h)
    · intro r hr
      simp only [get_tasks_today] at hr
      rw [if_neg hne] at hr
      exact scoped_filter_map_mem hr
        (fun t h => by rw [Bool.and_eq_true] at h; simpa using h.1)
    · intro s l hok r hrl
      simp only [get_tasks_by_status] at hok
      split at hok
      · exact Except.noConfusion hok
      · injection hok with hl
        subst hl
        exact scoped_filter_map_mem hrl
          (fun t h => by rw [Bool.and_eq_true] at h; simpa using h.1)
    · intro qd l hok r hrl
      simp only [get_tasks_by_quadrant] at hok
      split at hok
      · exact Except.noConfusion hok
      · injection hok with hl
        subst hl
        exact scoped_filter_map_mem hrl
          (fun t h => by rw [Bool.and_eq_true] at h; simpa using h.2)
    · intro q l hok r hrl
      simp only [search_tasks] at hok
      split at hok
      · exact Except.noConfusion hok
      · split at hok
        · exact Except.noConfusion hok
        · injection hok with hl
          subst hl
          exact scoped_filter_map_mem hrl
            (fun t h => by rw [Bool.and_eq_true] at h; simpa using h.1)
    · simp only [get_tasks_stats]
      rw [if_neg hne]
    · intro r hr
      simp only [get_deadline_stats] at hr
      rw [if_neg hne] at hr
      rcases List.mem_map.mp hr with ⟨t, ht, hrt⟩
      rcases List.mem_filter.mp ht with ⟨htdb, hpt⟩
      refine ⟨t, htdb, ?_, hrt.symm⟩
      rw [Bool.and_eq_true] at hpt
      simpa using hpt.2
    · intro tid t hfind howner
      have hauth := authFails_true_of_denied u t hne howner
      exact ⟨get_task_by_id_forbidden db u tid today t hfind hauth,
        update_task_forbidden db u tid upd today t hfind hauth,
        delete_task_forbidden db u tid t hfind hauth,
        complete_task_forbidden db u tid today now t hfind hauth⟩
  · intro hrole
    constructor
    · simp [get_all_tasks, hrole]
    · intro tid t hfind
      have hauth := authFails_false_of_admin u t hrole
      exact ⟨get_task_by_id_eq_ok db u tid today t hfind hauth,
        update_task_eq_ok db u tid upd today t hfind hauth,
        delete_task_eq_ok db u tid t hfind hauth,
        complete_task_eq_ok db u tid today now t hfind hauth⟩

/-- Witness for `ownership_scoping`: with two tasks owned by users 7 and 8,
a USER caller 7 lists only their own task, gets 403 on the foreign task,
and an ADMIN caller lists both. -/
theorem ownership_scoping_witness :
    (∀ r ∈ get_all_tasks
        ⟨[⟨1, "Mine", none, false, false, "Q4", false, ⟨0, 0⟩, none, none, 7⟩,
          ⟨2, "Theirs", none, false, false, "Q4", false, ⟨0, 0⟩, none, none, 8⟩], 3⟩
        ⟨7, UserRole.USER⟩ 0,
      ∃ t ∈ [⟨1, "Mine", none, false, false, "Q4", false, ⟨0, 0⟩, none, none, 7⟩,
          (⟨2, "Theirs", none, false, false, "Q4", false, ⟨0, 0⟩, none, none, 8⟩ : Task)],
        t.user_id = 7 ∧ r = taskResponse t 0) ∧
    get_task_by_id
        ⟨[⟨1, "Mine", none, false, false, "Q4", false, ⟨0, 0⟩, none, none, 7⟩,
          ⟨2, "Theirs", none, false, false, "Q4", false, ⟨0, 0⟩, none, none, 8⟩], 3⟩
        ⟨7, UserRole.USER⟩ 2 0 = .error ⟨403, "Нет доступа к этой задаче"⟩ ∧
    get_all_tasks
        ⟨[⟨1, "Mine", none, false, false, "Q4", false, ⟨0, 0⟩, none, none, 7⟩,
          ⟨2, "Theirs", none, false, false, "Q4", false, ⟨0, 0⟩, none, none, 8⟩], 3⟩
        ⟨9, UserRole.ADMIN⟩ 0 =
      [⟨1, "Mine", none, false, false, "Q4", false, ⟨0, 0⟩, none, none, 7⟩,
        (⟨2, "Theirs", none, false, false, "Q4", false, ⟨0, 0⟩, none, none, 8⟩ : Task)].map
        (fun t => taskResponse t 0) :=
  ⟨((ownership_scoping
      ⟨[⟨1, "Mine", none, false, false, "Q4", false, ⟨0, 0⟩, none, none, 7⟩,
        ⟨2, "Theirs", none, false, false, "Q4", false, ⟨0, 0⟩, none, none, 8⟩], 3⟩
      ⟨7, UserRole.USER⟩ 0 {} ⟨0, 0⟩).1 rfl).1,
   (((ownership_scoping
      ⟨[⟨1, "Mine", none, false, false, "Q4", false, ⟨0, 0⟩, none, none, 7⟩,
        ⟨2, "Theirs", none, false, false, "Q4", false, ⟨0, 0⟩, none, none, 8⟩], 3⟩
      ⟨7, UserRole.USER⟩ 0 {} ⟨0, 0⟩).1 rfl).2.2.2.2.2.2.2 2
      ⟨2, "Theirs", none, false, false, "Q4", false, ⟨0, 0⟩, none, none, 8⟩
      rfl (by decide)).1,
   ((ownership_scoping
      ⟨[⟨1, "Mine", none, false, false, "Q4", false, ⟨0, 0⟩, none, none, 7⟩,
        ⟨2, "Theirs", none, false, false, "Q4", false, ⟨0, 0⟩, none, none, 8⟩], 3⟩
      ⟨9, UserRole.ADMIN⟩ 0 {} ⟨0, 0⟩).2 rfl).1⟩

/-- C8 counterexample: the three malformed-input rejections do not share
one error kind — an unrecognized status is rejected with code 404 (the very
code of NotFoundError, as the also-proved `get_task_by_id` miss shows), an
unrecognized quadrant with 400, and a too-short query with 422. -/
theorem filter_validation_error_kinds_differ :
    get_tasks_by_status ⟨[], 1⟩ ⟨7, UserRole.USER⟩ "foo" 0 =
      .error ⟨404, "Недопустимый статус. Используйте: completed или pending"⟩ ∧
    get_tasks_by_quadrant ⟨[], 1⟩ ⟨7, UserRole.USER⟩ "Q9" 0 =
      .error ⟨400, "Неверный квадрант. Используйте: Q1, Q2, Q3, Q4"⟩ ∧
    search_tasks ⟨[], 1⟩ ⟨7, UserRole.USER⟩ "a" 0 =
      .error ⟨422, "String should have at least 2 characters"⟩ ∧
    get_task_by_id ⟨[], 1⟩ ⟨7, UserRole.USER⟩ 1 0 = .error ⟨404, "Задача не найдена"⟩ ∧
    (404 : Nat) ≠ 400 ∧ (400 : Nat) ≠ 422 :=
  ⟨rfl, rfl, rfl, rfl, by decide, by decide⟩

/-- C8 (amended): an unrecognized status value yields a 404 error (sharing
the NotFoundError code), an unrecognized quadrant a 400 error, and a query
shorter than 2 characters a 422 error; in each case the handler rejects the
request up front, for every database state, so the operation is never
attempted — but the three error kinds are not one uniform ValidationError. -/
theorem filter_validation_amended (db : Db) (u : User) (today : Int)
    (s qd q : String) :
    (s ≠ "completed" → s ≠ "pending" →
      get_tasks_by_status db u s today =
        .error ⟨404, "Недопустимый статус. Используйте: completed или pending"⟩) ∧
    (qd ≠ "Q1" → qd ≠ "Q2" → qd ≠ "Q3" → qd ≠ "Q4" →
      get_tasks_by_quadrant db u qd today =
        .error ⟨400, "Неверный квадрант. Используйте: Q1, Q2, Q3, Q4"⟩) ∧
    (q.length < 2 →
      search_tasks db u q today =
        .error ⟨422, "String should have at least 2 characters"⟩) := by
  refine ⟨?_, ?_, ?_⟩
  · intro h1 h2
    have hb : (!(s == "completed" || s == "pending")) = true := by
      simp [h1, h2]
    simp [get_tasks_by_status, hb]
  · intro h1 h2 h3 h4
    have hb : (!(qd == "Q1" || qd == "Q2" || qd == "Q3" || qd == "Q4")) = true := by
      simp [h1, h2, h3, h4]
    simp [get_tasks_by_quadrant, hb]
  · intro h
    simp [search_tasks, h]

/-- Witness for `filter_validation_amended` at concrete inputs, with a
nonempty table to show the rejection ignores the data. -/
theorem filter_validation_amended_witness :
    get_tasks_by_status ⟨[⟨1, "One", none, false, false, "Q4", false, ⟨0, 0⟩, none, none, 7⟩], 2⟩
        ⟨7, UserRole.USER⟩ "done" 0 =
      .error ⟨404, "Недопустимый статус. Используйте: completed или pending"⟩ ∧
    get_tasks_by_quadrant ⟨[⟨1, "One", none, false, false, "Q4", false, ⟨0, 0⟩, none, none, 7⟩], 2⟩
        ⟨7, UserRole.USER⟩ "Q5" 0 =
      .error ⟨400, "Неверный квадрант. Используйте: Q1, Q2, Q3, Q4"⟩ ∧
    search_tasks ⟨[⟨1, "One", none, false, false, "Q4", false, ⟨0, 0⟩, none, none, 7⟩], 2⟩
        ⟨7, UserRole.USER⟩ "x" 0 =
      .error ⟨422, "String should have at least 2 characters"⟩ :=
  ⟨(filter_validation_amended
      ⟨[⟨1, "One", none, false, false, "Q4", false, ⟨0, 0⟩, none, none, 7⟩], 2⟩
      ⟨7, UserRole.USER⟩ 0 "done" "Q5" "x").1 (by decide) (by decide),
   (filter_validation_amended
      ⟨[⟨1, "One", none, false, false, "Q4", false, ⟨0, 0⟩, none, none, 7⟩], 2⟩
      ⟨7, UserRole.USER⟩ 0 "done" "Q5" "x").2.1
      (by decide) (by decide) (by decide) (by decide),
   (filter_validation_amended
      ⟨[⟨1, "One", none, false, false, "Q4", false, ⟨0, 0⟩, none, none, 7⟩], 2⟩
      ⟨7, UserRole.USER⟩ 0 "done" "Q5" "x").2.2 (by decide)⟩

/-- C10: list reads serve the stored `is_urgent` and `quadrant` values and
recompute only `days_until_deadline` against the read-time date; hence a
task created when its deadline was 5 days off, read again one day before
the deadline, still reports (is_urgent = false, quadrant = "Q2") although
re-evaluating at read time would give urgent and Q1. -/
theorem reads_return_stored_classification (db : Db) (u : User) (today : Int) :
    (∀ r ∈ get_all_tasks db u today, ∃ t ∈ db.tasks,
      r.is_urgent = t.is_urgent ∧ r.quadrant = t.quadrant ∧
      r.days_until_deadline = calculate_days_until_deadline t.deadline_at today) ∧
    (∀ (qd : String) (l : List TaskResponse) (r : TaskResponse),
      get_tasks_by_quadrant db u qd today = .ok l → r ∈ l → ∃ t ∈ db.tasks,
        r.is_urgent = t.is_urgent ∧ r.quadrant = t.quadrant ∧
        r.days_until_deadline = calculate_days_until_deadline t.deadline_at today) ∧
    ((get_all_tasks
        (create_task ⟨[], 1⟩ ⟨7, UserRole.USER⟩ ⟨"Stale", none, true, some ⟨5, 0⟩⟩ 0 ⟨0, 0⟩).2
        ⟨7, UserRole.USER⟩ 4).map (fun r => (r.is_urgent, r.quadrant, r.days_until_deadline)) =
      [(false, "Q2", some 1)] ∧
      deadlineUrgent (some ⟨5, 0⟩) 4 = true ∧ classify true true = "Q1") := by
  refine ⟨?_, ?_, by decide⟩
  · intro r hr
    simp only [get_all_tasks] at hr
    rcases List.mem_map.mp hr with ⟨t, ht, hrt⟩
    have htdb : t ∈ db.tasks := by
      by_cases hrole : u.role = UserRole.ADMIN
      · rw [if_pos hrole] at ht
        exact ht
      · rw [if_neg hrole] at ht
        exact (List.mem_filter.mp ht).1
    exact ⟨t, htdb, by rw [← hrt]; rfl, by rw [← hrt]; rfl, by rw [← hrt]; rfl⟩
  · intro qd l r hok hrl
    simp only [get_tasks_by_quadrant] at hok
    split at hok
    · exact Except.noConfusion hok
    · by_cases hrole : u.role = UserRole.ADMIN
      · rw [if_pos hrole] at hok
        injection hok with hl
        subst hl
        rcases List.mem_map.mp hrl with ⟨t, ht, hrt⟩
        exact ⟨t, (List.mem_filter.mp ht).1, by rw [← hrt]; rfl,
          by rw [← hrt]; rfl, by rw [← hrt]; rfl⟩
      · rw [if_neg hrole] at hok
        injection hok with hl
        subst hl
        rcases List.mem_map.mp hrl with ⟨t, ht, hrt⟩
        exact ⟨t, (List.mem_filter.mp ht).1, by rw [← hrt]; rfl,
          by rw [← hrt]; rfl, by rw [← hrt]; rfl⟩

/-- Witness for `reads_return_stored_classification`: reading the single
stored stale task returns its stored pair and a fresh day count. -/
theorem reads_return_stored_classification_witness :
    ∃ t ∈ ({ tasks := [⟨1, "Stale", none, true, false, "Q2", false, ⟨0, 0⟩, none, some ⟨5, 0⟩, 7⟩], nextId := 2 } : Db).tasks,
      (taskResponse ⟨1, "Stale", none, true, false, "Q2", false, ⟨0, 0⟩, none, some ⟨5, 0⟩, 7⟩ 4).is_urgent = t.is_urgent ∧
      (taskResponse ⟨1, "Stale", none, true, false, "Q2", false, ⟨0, 0⟩, none, some ⟨5, 0⟩, 7⟩ 4).quadrant = t.quadrant ∧
      (taskResponse ⟨1, "Stale", none, true, false, "Q2", false, ⟨0, 0⟩, none, some ⟨5, 0⟩, 7⟩ 4).days_until_deadline =
        calculate_days_until_deadline t.deadline_at 4 :=
  (reads_return_stored_classification
    { tasks := [⟨1, "Stale", none, true, false, "Q2", false, ⟨0, 0⟩, none, some ⟨5, 0⟩, 7⟩], nextId := 2 }
    ⟨7, UserRole.USER⟩ 4).1
    (taskResponse ⟨1, "Stale", none, true, false, "Q2", false, ⟨0, 0⟩, none, some ⟨5, 0⟩, 7⟩ 4)
    (by simp [get_all_tasks])

end ToDo
